import Mathlib

/-!
# Formal model of the FRI (Financial Resilience Index) scoring pipeline

Shallow embedding of `fri_calculator_split_v1.py` and `fri_category_map.py`
from the Cogninance-FIONA repository.  Money amounts are rationals, dates are
integer day numbers (days since 1970-01-01), and the only real-valued parts
are the scores that go through `Real.sqrt` (coefficient of variation) and
`Real.tanh` (momentum), exactly where the Python code uses float `np.std`
and `np.tanh`.
-/

namespace FRI

/-- numpy `clip` on rationals: `max lo (min hi x)`. -/
def clipQ (lo hi x : ℚ) : ℚ := max lo (min hi x)

/-- numpy `clip` on reals. -/
noncomputable def clipR (lo hi x : ℝ) : ℝ := max lo (min hi x)

/-- Python banker's rounding (round-half-to-even) of a rational to an integer. -/
def bankersRound (q : ℚ) : ℤ :=
  let f := ⌊q⌋
  let r := q - (f : ℚ)
  if r < 1/2 then f
  else if 1/2 < r then f + 1
  else if f % 2 = 0 then f else f + 1

/-- Python `round(x, 2)`. -/
def round2 (q : ℚ) : ℚ := (bankersRound (q * 100) : ℚ) / 100

/-- Python `round(x, 3)`. -/
def round3 (q : ℚ) : ℚ := (bankersRound (q * 1000) : ℚ) / 1000

/-- Python `int(x)`: truncation toward zero. -/
def intTrunc (q : ℚ) : ℤ := if 0 ≤ q then ⌊q⌋ else -⌊-q⌋

/-- Month index (`year * 12 + month - 1`) of a day number, proleptic Gregorian
calendar with epoch 1970-01-01 = day 0.  This mirrors what
`pandas.Timestamp.to_period('M')` computes for a date.  Standard
civil-from-days algorithm. -/
def civilMonth (day : ℤ) : ℤ :=
  let z := day + 719468
  let era := z / 146097
  let doe := z - era * 146097
  let yoe := (doe - doe / 1460 + doe / 36524 - doe / 146096) / 365
  let y := yoe + era * 400
  let doy := doe - (365 * yoe + yoe / 4 - yoe / 100)
  let mp := (5 * doy + 2) / 153
  let m := if mp < 10 then mp + 3 else mp - 9
  let yy := if m ≤ 2 then y + 1 else y
  yy * 12 + (m - 1)

/-- `pandas.period_range(start, end, freq='M')` as a list of month indices. -/
def monthRange (a b : ℤ) : List ℤ := (List.range (b - a + 1).toNat).map (fun i => a + i)

/-! The next five definitions name the intermediate quantities of
`civilMonth` (era, day-of-era, year-of-era, day-of-year, shifted month),
so that facts about the calendar — e.g. that any 180-day interval crosses
a month boundary — can be stated and proved piecewise. -/

def cmEra (d : ℤ) : ℤ := (d + 719468) / 146097

def cmDoe (d : ℤ) : ℤ := (d + 719468) - cmEra d * 146097

def cmYoe (d : ℤ) : ℤ :=
  (cmDoe d - cmDoe d / 1460 + cmDoe d / 36524 - cmDoe d / 146096) / 365

def cmDoy (d : ℤ) : ℤ := cmDoe d - (365 * cmYoe d + cmYoe d / 4 - cmYoe d / 100)

def cmMp (d : ℤ) : ℤ := (5 * cmDoy d + 2) / 153

/-! ## Role taxonomy and category map (`fri_category_map.py`) -/

/-- A category-map value: `{'fri_role': …, 'essential': …, 'needs_enrichment': …}`. -/
structure Mapping where
  fri_role : String
  essential : Bool
  needs_enrichment : Bool
deriving DecidableEq, Repr

def INCOME_ROLES : List String := ["STABILITY_INCOME", "STABILITY_BENEFIT"]

def ESSENTIAL_SPENDING_ROLES : List String :=
  ["BUFFER_ESSENTIAL", "FEE_BANK", "TAX_LEVY", "MOMENTUM_DEBT_REPAY"]

def UNCLASSIFIED_SPENDING_ROLES : List String := ["BUFFER_SPENDING_UNCLASSIFIED"]

def EXCLUDED_ROLES : List String := ["INTERNAL_TRANSFER", "SYSTEM_OPERATION"]

def DEBT_INCREASE_ROLES : List String := ["MOMENTUM_DEBT_NEW"]

def DEBT_DECREASE_ROLES : List String := ["MOMENTUM_DEBT_REPAY"]

def DEBT_COST_ROLES : List String := ["MOMENTUM_DEBT_COST"]

def friCategoryMapPart0 : List ((String × String) × Mapping) := [
  (("Receive Credit Transfer", "SAVINGS DEPOSIT"), ⟨"STABILITY_INCOME", true, true⟩),
  (("Receive Credit Transfer Instant", "ΚΑΤΑΘΕΣΕΙΣ ΤΑΜΙΕΥΤΗΡΙΟΥ"), ⟨"STABILITY_INCOME", true, true⟩),
  (("Receive Credit Transfer Iris", "ΚΑΤΑΘΕΣΕΙΣ ΤΑΜΙΕΥΤΗΡΙΟΥ"), ⟨"STABILITY_INCOME", true, true⟩),
  (("Receive Return Credit Transfer", "ΚΑΤΑΘΕΣΕΙΣ ΤΑΜΙΕΥΤΗΡΙΟΥ"), ⟨"SYSTEM_OPERATION", false, false⟩),
  (("Card Top Up", "ΚΑΤΑΘΕΣΕΙΣ ΤΑΜΙΕΥΤΗΡΙΟΥ TOP UP"), ⟨"STABILITY_INCOME", true, true⟩),
  (("Deposit Transaction", "ΕΦΟΔΙΑΣΜΟΣ ΛΟΓΑΡΙΑΣΜΩΝ YOUTH PASS"), ⟨"STABILITY_BENEFIT", true, false⟩),
  (("Deposit Transaction", "ΕΦΟΔΙΑΣΜΟΣ ΛΟΓΑΡΙΑΣΜΩΝ CU"), ⟨"REWARD_CASHBACK", false, false⟩),
  (("Deposit Transaction", "VODAFONE CU Cash Back"), ⟨"REWARD_CASHBACK", false, false⟩),
  (("Deposit Transaction", "ΚΑΤΑΘΕΣΗ ΤΑΜΙΕΥΤΗΡΙΟΥ ΑΠΟ ΑΓΟΡΕΣ POS- ECOMMERCE"), ⟨"SYSTEM_OPERATION", false, false⟩),
  (("Deposit Transaction", "ΚΑΤΑΘΕΣΗ ΤΑΜΙΕΥΤΗΡΙΟΥ ΓΙΑ POS"), ⟨"SYSTEM_OPERATION", false, false⟩),
  (("Deposit Transaction", "Μερική Επιστροφή Συναλλαγής"), ⟨"SYSTEM_OPERATION", false, false⟩),
  (("Deposit Transaction", "Επιστροφή απο Αμφισβήτηση (Chargeback)"), ⟨"SYSTEM_OPERATION", false, false⟩),
  (("Deposit Transaction", "SAVINGS DEPOSIT"), ⟨"INTERNAL_TRANSFER", false, true⟩),
  (("Deposit Transaction", "Loyalty Rewards"), ⟨"REWARD_CASHBACK", false, false⟩),
  (("Deposit Transaction", "Contest - Cashback Rewards"), ⟨"REWARD_CASHBACK", false, false⟩)]

def friCategoryMapPart1 : List ((String × String) × Mapping) := [
  (("Create Bnpl Account", "ΚΑΤΑΘΕΣΕΙΣ ΤΑΜΙΕΥΤΗΡΙΟΥ"), ⟨"MOMENTUM_DEBT_NEW", false, false⟩),
  (("Create Flex Account", "ΚΑΤΑΘΕΣΕΙΣ ΤΑΜΙΕΥΤΗΡΙΟΥ"), ⟨"MOMENTUM_DEBT_NEW", false, false⟩),
  (("Full Refund On Bnpl Account", "ΚΑΤΑΘΕΣΕΙΣ ΤΑΜΙΕΥΤΗΡΙΟΥ"), ⟨"MOMENTUM_DEBT_REPAY", false, false⟩),
  (("Partial Refund On Bnpl Account", "ΚΑΤΑΘΕΣΕΙΣ ΤΑΜΙΕΥΤΗΡΙΟΥ"), ⟨"MOMENTUM_DEBT_REPAY", false, false⟩),
  (("Pay Debt", "Black Friday Reward"), ⟨"REWARD_CASHBACK", false, false⟩),
  (("Pay Debt", "Card test transaction"), ⟨"REWARD_CASHBACK", false, false⟩),
  (("Pay Debt", "Cash Now Cashback"), ⟨"REWARD_CASHBACK", false, false⟩),
  (("Pay Debt", "Cash Now Early Repayment Cash Back"), ⟨"REWARD_CASHBACK", false, false⟩),
  (("Pay Debt", "Cash Now Late Fees Cashback"), ⟨"REWARD_CASHBACK", false, false⟩),
  (("Pay Debt", "Christmas BNPL Cashback"), ⟨"REWARD_CASHBACK", false, false⟩),
  (("Pay Debt", "Christmas Village Reward"), ⟨"REWARD_CASHBACK", false, false⟩),
  (("Pay Debt", "IRIS Campaign Cashback"), ⟨"REWARD_CASHBACK", false, false⟩),
  (("Pay Debt", "January \x2726 BNPL CashBack"), ⟨"REWARD_CASHBACK", false, false⟩),
  (("Pay Debt", "Loyalty Rewards"), ⟨"REWARD_CASHBACK", false, false⟩),
  (("Pay Debt", "Pay Later Cashback"), ⟨"REWARD_CASHBACK", false, false⟩)]

def friCategoryMapPart2 : List ((String × String) × Mapping) := [
  (("Pay Debt", "Transportation Reward"), ⟨"REWARD_CASHBACK", false, false⟩),
  (("Pay Debt", "VODAFONE CU Cash Back"), ⟨"REWARD_CASHBACK", false, false⟩),
  (("Pay Debt", "Vodafone Loyalty Rewards"), ⟨"REWARD_CASHBACK", false, false⟩),
  (("Pay Debt", "Welcome Offer Reward"), ⟨"REWARD_CASHBACK", false, false⟩),
  (("Pay Debt", "You.gr Cashback"), ⟨"REWARD_CASHBACK", false, false⟩),
  (("Pay Debt", "ΑΒ Offer Reward"), ⟨"REWARD_CASHBACK", false, false⟩),
  (("Pay Debt", "ΕΞΟΦΛΗΣΗ ΔΙΑΦΟΡΩΝ ΔΑΠΑΝΩΝ EUR ΜΕ ΚΑΤΑΘΕΣΗ ΣΕ ΤΑΜΙΕΥΤΗΡΙΟ"), ⟨"SYSTEM_OPERATION", false, false⟩),
  (("Pay Debt", "ΕΦΟΔΙΑΣΜΟΣ ΛΟΓΑΡΙΑΣΜΩΝ CU"), ⟨"REWARD_CASHBACK", false, false⟩),
  (("Pay Debt", "Συμψηφιστική Κατάθεση"), ⟨"SYSTEM_OPERATION", false, false⟩),
  (("Interest Transaction", "Credit Interest"), ⟨"REWARD_CASHBACK", false, false⟩),
  (("Savings Account Transfer", "ΚΑΤΑΘΕΣΗ ΤΑΜΙΕΥΤΗΡΙΟΥ"), ⟨"INTERNAL_TRANSFER", false, false⟩),
  (("Savings Transfers (To My Account)", "ΚΑΤΑΘΕΣΗ ΤΑΜΙΕΥΤΗΡΙΟΥ"), ⟨"INTERNAL_TRANSFER", false, false⟩),
  (("Transfer Transaction", "ΚΑΤΑΘΕΣΕΙΣ ΤΑΜΙΕΥΤΗΡΙΟΥ"), ⟨"INTERNAL_TRANSFER", false, true⟩),
  (("Transfer Transaction", "Mastercard Cards Chargeback"), ⟨"SYSTEM_OPERATION", false, false⟩),
  (("Savings Account Closing", "ΚΑΤΑΘΕΣΕΙΣ ΤΑΜΙΕΥΤΗΡΙΟΥ"), ⟨"INTERNAL_TRANSFER", false, false⟩)]

def friCategoryMapPart3 : List ((String × String) × Mapping) := [
  (("Reconciliation Of Paymentology File", "ΚΑΤΑΘΕΣΗ ΑΠΟ ΕΠΙΣΤΡΟΦΕΣ POS - eCommerce - ATM OFFLINE"), ⟨"SYSTEM_OPERATION", false, false⟩),
  (("Reconciliation Of Chargeback File", "Mastercard Cards Chargeback"), ⟨"SYSTEM_OPERATION", false, false⟩),
  (("Full Reversal", "Πλήρης Αντιλογισμός Ταμιευτηρίου"), ⟨"SYSTEM_OPERATION", false, false⟩),
  (("Full Reversal", "Ακυρωτικό Ταμιευτηρίου"), ⟨"SYSTEM_OPERATION", false, false⟩),
  (("Reversal of BNPL Account", "ΑΝΑΛΗΨΗ ΤΑΜΙΕΥΤΗΡΙΟΥ"), ⟨"SYSTEM_OPERATION", false, false⟩),
  (("Cancellation- Second Step", "ΑΝΑΛΗΨΗ ΓΙΑ ΑΓΟΡΕΣ POS - eCommerce - ATM OFFLINE"), ⟨"SYSTEM_OPERATION", false, false⟩),
  (("Cancellation- Second Step", "ΑΝΑΛΗΨΗ ΤΑΜΙΕΥΤΗΡΙΟΥ"), ⟨"SYSTEM_OPERATION", false, false⟩),
  (("Cancellation- Second Step", "ΠΡΟΜΗΘΕΙΑ ΑΠΟ ΚΙΝΗΣΗ ΚΕΦΑΛΑΙΩΝ"), ⟨"SYSTEM_OPERATION", false, false⟩),
  (("Cancellation- Second Step", "ΠΡΟΜΗΘΕΙΑ ΑΠΟ ΚΙΝΗΣΗ ΚΕΦΑΛΑΙΩΝ (INSTANT)"), ⟨"SYSTEM_OPERATION", false, false⟩),
  (("Cancellation- Second Step", "Συμψηφιστική Αναληψη"), ⟨"SYSTEM_OPERATION", false, false⟩),
  (("Withdrawal Transaction", "ΑΝΑΛΗΨΗ ΤΑΜΙΕΥΤΗΡΙΟΥ ΓΙΑ POS"), ⟨"BUFFER_SPENDING_UNCLASSIFIED", true, true⟩),
  (("Withdrawal Transaction", "ΑΝΑΛΗΨΗ ΑΠΟ ATM"), ⟨"BUFFER_SPENDING_UNCLASSIFIED", true, true⟩),
  (("Reconciliation Of Paymentology File", "ΑΝΑΛΗΨΗ ΓΙΑ ΑΓΟΡΕΣ POS - eCommerce - ATM OFFLINE"), ⟨"BUFFER_SPENDING_UNCLASSIFIED", true, true⟩),
  (("Reconciliation Of Paymentology File", "PAYMENTOLOGY RECON (DEBIT)"), ⟨"SYSTEM_OPERATION", false, false⟩),
  (("Create Credit Transfer", "ΑΝΑΛΗΨΗ ΤΑΜΙΕΥΤΗΡΙΟΥ"), ⟨"BUFFER_SPENDING_UNCLASSIFIED", true, true⟩)]

def friCategoryMapPart4 : List ((String × String) × Mapping) := [
  (("Create Credit Transfer Instant", "ΑΝΑΛΗΨΗ ΤΑΜΙΕΥΤΗΡΙΟΥ"), ⟨"BUFFER_SPENDING_UNCLASSIFIED", true, true⟩),
  (("Create Credit Transfer Iris", "ΑΝΑΛΗΨΗ ΤΑΜΙΕΥΤΗΡΙΟΥ"), ⟨"BUFFER_SPENDING_UNCLASSIFIED", true, true⟩),
  (("Create Credit Transfer", "ΠΡΟΜΗΘΕΙΑ ΑΠΟ ΚΙΝΗΣΗ ΚΕΦΑΛΑΙΩΝ"), ⟨"FEE_BANK", true, false⟩),
  (("Create Credit Transfer", "ΠΡΟΜΗΘΕΙΑ ΑΠΟ ΚΙΝΗΣΗ ΚΕΦΑΛΑΙΩΝ (INSTANT)"), ⟨"FEE_BANK", true, false⟩),
  (("Create Credit Transfer Instant", "ΠΡΟΜΗΘΕΙΑ ΑΠΟ ΚΙΝΗΣΗ ΚΕΦΑΛΑΙΩΝ (INSTANT)"), ⟨"FEE_BANK", true, false⟩),
  (("Receive Credit Transfer Instant", "ΠΡΟΜΗΘΕΙΑ ΑΠΟ ΚΙΝΗΣΗ ΚΕΦΑΛΑΙΩΝ (INSTANT)"), ⟨"FEE_BANK", true, false⟩),
  (("Bnpl Account Payment", "ΑΝΑΛΗΨΗ ΤΑΜΙΕΥΤΗΡΙΟΥ"), ⟨"MOMENTUM_DEBT_REPAY", true, false⟩),
  (("Payment Flex Account", "ΑΝΑΛΗΨΗ ΤΑΜΙΕΥΤΗΡΙΟΥ"), ⟨"MOMENTUM_DEBT_REPAY", true, false⟩),
  (("Create Bnpl Account", "ΑΝΑΛΗΨΗ ΤΑΜΙΕΥΤΗΡΙΟΥ"), ⟨"BUFFER_SPENDING_UNCLASSIFIED", true, true⟩),
  (("Product Payment Credit Transfer", "ΑΝΑΛΗΨΗ ΤΑΜΙΕΥΤΗΡΙΟΥ"), ⟨"BUFFER_SPENDING_UNCLASSIFIED", true, true⟩),
  (("Product Payment Credit Transfer Instant", "ΑΝΑΛΗΨΗ ΤΑΜΙΕΥΤΗΡΙΟΥ"), ⟨"BUFFER_SPENDING_UNCLASSIFIED", true, true⟩),
  (("Direct Debit Payment", "ΠΑΓΙΕΣ ΕΝΤΟΛΕΣ DIAS CREDIT DDD"), ⟨"BUFFER_ESSENTIAL", true, false⟩),
  (("Create Flex Account", "Cash Now COMMISSION / ΠΡΟΜΗΘΕΙΑ ΔΗΜΙΟΥΡΓΙΑΣ Cash Now"), ⟨"MOMENTUM_DEBT_COST", true, false⟩),
  (("Create Flex Account", "FLEX COMMISSION / ΠΡΟΜΗΘΕΙΑ ΔΗΜΙΟΥΡΓΙΑΣ FLEX"), ⟨"MOMENTUM_DEBT_COST", true, false⟩),
  (("Change Payment Date On Bnpl Account", "COMMISSION RECEIVING SNOOZE"), ⟨"MOMENTUM_DEBT_COST", true, false⟩)]

def friCategoryMapPart5 : List ((String × String) × Mapping) := [
  (("Full Refund On Bnpl Account", "ΑΝΑΛΗΨΗ ΤΑΜΙΕΥΤΗΡΙΟΥ"), ⟨"SYSTEM_OPERATION", false, false⟩),
  (("Partial Refund On Bnpl Account", "ΑΝΑΛΗΨΗ ΤΑΜΙΕΥΤΗΡΙΟΥ"), ⟨"SYSTEM_OPERATION", false, false⟩),
  (("Interest Transaction", "Interest Tax"), ⟨"TAX_LEVY", true, false⟩),
  (("Savings Account Transfer", "ΑΝΑΛΗΨΗ ΤΑΜΙΕΥΤΗΡΙΟΥ"), ⟨"INTERNAL_TRANSFER", false, false⟩),
  (("Savings Transfers (To My Account)", "ΑΝΑΛΗΨΗ ΤΑΜΙΕΥΤΗΡΙΟΥ"), ⟨"INTERNAL_TRANSFER", false, false⟩),
  (("Savings Account Closing", "ΑΝΑΛΗΨΗ ΤΑΜΙΕΥΤΗΡΙΟΥ"), ⟨"INTERNAL_TRANSFER", false, false⟩),
  (("Charges For Card Issuance", "COMMISSION RECEIVING CARD ISSUANCE"), ⟨"FEE_BANK", true, false⟩),
  (("Withdrawal Transaction", "COMMISSION RECEIVING ATM"), ⟨"FEE_BANK", true, false⟩),
  (("Withdrawal Transaction", "FEES RECEIVING ATM"), ⟨"FEE_BANK", true, false⟩),
  (("Withdrawal Transaction", "MANUAL ΕΞΕΡΧΟΜΕΝΟ ΕΜΒΑΣΜΑ TIPS"), ⟨"BUFFER_DISCRETIONARY", false, false⟩),
  (("Pay Demand", "Συμψηφιστική Αναληψη"), ⟨"SYSTEM_OPERATION", false, true⟩),
  (("Return Credit Transfer", "ΑΝΑΛΗΨΗ ΤΑΜΙΕΥΤΗΡΙΟΥ"), ⟨"SYSTEM_OPERATION", false, false⟩),
  (("Cancellation- Second Step", "Christmas BNPL Cashback"), ⟨"SYSTEM_OPERATION", false, false⟩),
  (("Cancellation- Second Step", "January \x2726 BNPL CashBack"), ⟨"SYSTEM_OPERATION", false, false⟩),
  (("Cancellation- Second Step", "Mastercard Cards Chargeback"), ⟨"SYSTEM_OPERATION", false, false⟩)]

def friCategoryMapPart6 : List ((String × String) × Mapping) := [
  (("Cancellation- Second Step", "Pay Later Cashback"), ⟨"SYSTEM_OPERATION", false, false⟩),
  (("Cancellation- Second Step", "ΚΑΤΑΘΕΣΗ ΑΠΟ ΕΠΙΣΤΡΟΦΕΣ POS - eCommerce - ATM OFFLINE"), ⟨"SYSTEM_OPERATION", false, false⟩),
  (("Cancellation- Second Step", "Συμψηφιστική Κατάθεση"), ⟨"SYSTEM_OPERATION", false, false⟩),
  (("Reversal of BNPL Account", "ΚΑΤΑΘΕΣΕΙΣ ΤΑΜΙΕΥΤΗΡΙΟΥ"), ⟨"SYSTEM_OPERATION", false, false⟩),
  (("Full Reversal", "Ακυρωτικό Ταμιευτηρίου"), ⟨"SYSTEM_OPERATION", false, false⟩),
  (("Full Reversal", "Πλήρης Αντιλογισμός Ταμιευτηρίου"), ⟨"SYSTEM_OPERATION", false, false⟩),
  (("Interest Transaction", "Interest Levy"), ⟨"TAX_LEVY", true, false⟩),
  (("Interest Transaction", "Debit Interest (Χρεωστικοί Τόκοι)"), ⟨"MOMENTUM_DEBT_COST", true, false⟩),
  (("Savings Account Closing", "ΠΙΣΤΩΤΙΚΟΙ ΤΟΚΟΙ ΤΑΜΙΕΥΤΗΡΙΟΥ"), ⟨"REWARD_CASHBACK", false, false⟩),
  (("Savings Account Closing", "ΦΟΡΟΙ ΤΑΜΙΕΥΤΗΡΙΟΥ"), ⟨"TAX_LEVY", true, false⟩),
  (("Savings Account Closing", "ΕΙΣΦΟΡΑ ΤΑΜΙΕΥΤΗΡΙΟΥ"), ⟨"TAX_LEVY", true, false⟩),
  (("Savings Account Closing", "ΧΡΕΩΣΤΙΚΟΙ ΤΟΚΟΙ ΤΑΜΙΕΥΤΗΡΙΟΥ"), ⟨"MOMENTUM_DEBT_COST", true, false⟩),
  (("Charges For Card Issuance", "COMMISSION RECEIVING"), ⟨"FEE_BANK", true, false⟩)]

/-- `FRI_CATEGORY_MAP`: `(TransactionType, TransactionSubSubType) → Mapping`,
transcribed entry by entry from `fri_category_map.py` (split into chunks only
to keep elaboration fast; the concatenation is the one dict). -/
def FRI_CATEGORY_MAP : List ((String × String) × Mapping) :=
  friCategoryMapPart0 ++ friCategoryMapPart1 ++ friCategoryMapPart2 ++ friCategoryMapPart3 ++ friCategoryMapPart4 ++ friCategoryMapPart5 ++ friCategoryMapPart6

/-- `TRANSACTION_TYPE_FALLBACK`. -/
def TRANSACTION_TYPE_FALLBACK : List (String × Mapping) := [
  ("Receive Credit Transfer", ⟨"STABILITY_INCOME", true, true⟩),
  ("Receive Credit Transfer Instant", ⟨"STABILITY_INCOME", true, true⟩),
  ("Receive Credit Transfer Iris", ⟨"STABILITY_INCOME", true, true⟩),
  ("Withdrawal Transaction", ⟨"BUFFER_SPENDING_UNCLASSIFIED", true, true⟩),
  ("Deposit Transaction", ⟨"REWARD_CASHBACK", false, true⟩),
  ("Pay Debt", ⟨"REWARD_CASHBACK", false, false⟩),
  ("Cancellation- Second Step", ⟨"SYSTEM_OPERATION", false, false⟩),
  ("Full Reversal", ⟨"SYSTEM_OPERATION", false, false⟩)]

/-- `TRANSACTION_DESC_FALLBACK`. -/
def TRANSACTION_DESC_FALLBACK : List (String × Mapping) := [
  ("Commission", ⟨"FEE_BANK", true, false⟩),
  ("Tax", ⟨"TAX_LEVY", true, false⟩),
  ("Levy", ⟨"TAX_LEVY", true, false⟩),
  ("Credit Interests", ⟨"REWARD_CASHBACK", false, false⟩),
  ("Debit Interests", ⟨"MOMENTUM_DEBT_COST", true, false⟩),
  ("Full Reversal", ⟨"SYSTEM_OPERATION", false, false⟩),
  ("Cancellation", ⟨"SYSTEM_OPERATION", false, false⟩),
  ("Savings Account Deposit", ⟨"INTERNAL_TRANSFER", false, false⟩),
  ("Savings Account Withrawal", ⟨"INTERNAL_TRANSFER", false, false⟩),
  ("Expenses", ⟨"FEE_BANK", true, false⟩),
  ("Credit Account", ⟨"SYSTEM_OPERATION", false, false⟩)]

/-- `ESSENTIAL_MCC_CODES`. -/
def ESSENTIAL_MCC_CODES : List String := [
  "5411", "5422", "5441", "5451", "5462",
  "4900", "4814", "4812", "4813",
  "4111", "4112", "4121", "4131", "5541", "5542",
  "5912", "8011", "8021", "8031", "8041", "8042", "8043",
  "8049", "8050", "8062", "8071", "8099",
  "6300",
  "8211", "8220", "8241", "8244", "8249", "8299",
  "1520", "1711", "1731", "1740", "1750", "1761", "1771"]

/-- `DISCRETIONARY_MCC_CODES`. -/
def DISCRETIONARY_MCC_CODES : List String := [
  "5812", "5813", "5814",
  "7832", "7922", "7929", "7933", "7941",
  "7991", "7992", "7993", "7994", "7995", "7996",
  "5611", "5621", "5631", "5641", "5651", "5661", "5691", "5699",
  "5732", "5733", "5734", "5735",
  "5944", "5945", "5947",
  "4511", "4722", "7011", "7012",
  "7230", "7297", "7298",
  "5815", "5816", "5817", "5818"]

/-! ## Transaction classifier (`TransactionClassifier`) -/

/-- A raw transaction row with all columns present (the §3 data model).
`none` in a string field models a missing/NaN cell, `none` in an amount
models NaN (filled with 0 by `fillna`). -/
structure RawTx where
  transaction_date : ℤ
  TransactionType : Option String
  TransactionSubSubType : Option String
  TransactionDescription : Option String
  CreditAmountLC : Option ℚ
  DebitAmountLC : Option ℚ
  mcc_code : Option String
deriving DecidableEq, Repr

/-- A classified transaction: the columns the classifier adds. -/
structure CTx where
  transaction_date : ℤ
  TransactionSubSubType : Option String
  fri_net_amount : ℚ
  fri_abs_amount : ℚ
  fri_role : String
  fri_essential : Bool
  fri_needs_enrichment : Bool
  mcc_code : Option String
deriving DecidableEq, Repr

/-- `FRI_CATEGORY_MAP.get((TransactionType, TransactionSubSubType))`:
a NaN/missing component never matches a string key. -/
def mapGet (t s : Option String) : Option Mapping :=
  match t, s with
  | some a, some b => (FRI_CATEGORY_MAP.find? (fun e => e.1.1 == a && e.1.2 == b)).map (·.2)
  | _, _ => none

def typeFallbackGet (t : Option String) : Option Mapping :=
  match t with
  | some a => (TRANSACTION_TYPE_FALLBACK.find? (fun e => e.1 == a)).map (·.2)
  | none => none

def descFallbackGet (d : Option String) : Option Mapping :=
  match d with
  | some a => (TRANSACTION_DESC_FALLBACK.find? (fun e => e.1 == a)).map (·.2)
  | none => none

/-- `TransactionClassifier._fallback_classify`. -/
def fallback_classify (t d : Option String) : Mapping :=
  match typeFallbackGet t with
  | some m => m
  | none =>
    match descFallbackGet d with
    | some m => m
    | none => ⟨"SYSTEM_OPERATION", false, true⟩

/-- One row of the rule-based pass of `classify`: primary map lookup with
fallback. -/
def classifyKey (t s d : Option String) : Mapping :=
  match mapGet t s with
  | some m => m
  | none => fallback_classify t d

/-- The rule-based pass of `classify` on one well-formed row. -/
def classifyTx (r : RawTx) : CTx :=
  let net := r.CreditAmountLC.getD 0 - r.DebitAmountLC.getD 0
  let m := classifyKey r.TransactionType r.TransactionSubSubType r.TransactionDescription
  ⟨r.transaction_date, r.TransactionSubSubType, net, |net|,
   m.fri_role, m.essential, m.needs_enrichment, r.mcc_code⟩

/-- Python `str.strip()`: drop leading and trailing whitespace. -/
def pyStrip (s : String) : String :=
  String.mk
    ((((s.toList.dropWhile Char.isWhitespace).reverse.dropWhile Char.isWhitespace).reverse))

/-- `TransactionClassifier._enrich_with_mcc` on one row.  Only rows still
`BUFFER_SPENDING_UNCLASSIFIED` with a non-null MCC code are touched; the
code is stripped (`str(…).strip()`) and looked up in the essential then
discretionary sets. -/
def enrichOne (r : CTx) : CTx :=
  if r.fri_role == "BUFFER_SPENDING_UNCLASSIFIED" then
    match r.mcc_code with
    | some c =>
      if ESSENTIAL_MCC_CODES.contains (pyStrip c) then
        { r with fri_role := "BUFFER_ESSENTIAL", fri_essential := true,
                 fri_needs_enrichment := false }
      else if DISCRETIONARY_MCC_CODES.contains (pyStrip c) then
        { r with fri_role := "BUFFER_DISCRETIONARY", fri_essential := false,
                 fri_needs_enrichment := false }
      else r
    | none => r
  else r

/-- `TransactionClassifier._enrich_with_mcc` over the whole frame (the mask
is computed up-front and rows are updated independently, so it is a map). -/
def enrich_with_mcc (rows : List CTx) : List CTx := rows.map enrichOne

/-- `TransactionClassifier.classify` on well-formed rows.  `hasMcc` models
whether the `mcc_code` column is present in the frame. -/
def classify (hasMcc : Bool) (rows : List RawTx) : List CTx :=
  let base := rows.map classifyTx
  if hasMcc then enrich_with_mcc base else base

/-! ### Classifier boundary on arbitrary tables (for malformed input)

pandas semantics mirrored by `classifyTable`:
`df['CreditAmountLC']` on a frame without that column raises `KeyError`
(before `DebitAmountLC` is touched, by left-to-right evaluation);
`fillna(0)` keeps string cells, and subtracting object-dtype series that
contain strings raises `TypeError`; `row.get(col)` returns the default when
the column is absent; the classifier never reads `transaction_date`.

The `CTx` rows produced for a frame without a date column carry day `0`
(any later date access in the engines would raise; the classifier itself
returns normally, which is exactly what claim C9 is about). -/

/-- An amount cell: numeric, a string, or NaN. -/
inductive Cell
  | num (q : ℚ)
  | txt (s : String)
  | na
deriving DecidableEq, Repr

def Cell.isNumericOrNa : Cell → Bool
  | .txt _ => false
  | _ => true

/-- `fillna(0)` followed by reading the numeric value. -/
def Cell.val : Cell → ℚ
  | .num q => q
  | _ => 0

structure RawRow where
  transaction_date : Option ℤ
  TransactionType : Option String
  TransactionSubSubType : Option String
  TransactionDescription : Option String
  CreditAmountLC : Cell
  DebitAmountLC : Cell
  mcc_code : Option String
deriving DecidableEq, Repr

/-- An input table: which columns exist, and the rows. -/
structure RawTable where
  has_date : Bool
  has_type : Bool
  has_subsub : Bool
  has_desc : Bool
  has_credit : Bool
  has_debit : Bool
  has_mcc : Bool
  rows : List RawRow
deriving DecidableEq, Repr

/-- `TransactionClassifier.classify` at the table boundary, with the pandas
error behaviour described above. -/
def classifyTable (t : RawTable) : Except String (List CTx) :=
  if !t.has_credit then .error "KeyError: CreditAmountLC"
  else if !t.has_debit then .error "KeyError: DebitAmountLC"
  else if !(t.rows.all fun r => r.CreditAmountLC.isNumericOrNa && r.DebitAmountLC.isNumericOrNa) then
    .error "TypeError: unsupported operand type for -"
  else
    let getS := fun (hasCol : Bool) (v : Option String) => if hasCol then v else none
    let base := t.rows.map fun r =>
      let net := r.CreditAmountLC.val - r.DebitAmountLC.val
      let m := classifyKey (getS t.has_type r.TransactionType)
        (getS t.has_subsub r.TransactionSubSubType) (getS t.has_desc r.TransactionDescription)
      (⟨(if t.has_date then r.transaction_date else none).getD 0,
        getS t.has_subsub r.TransactionSubSubType, net, |net|,
        m.fri_role, m.essential, m.needs_enrichment,
        if t.has_mcc then r.mcc_code else none⟩ : CTx)
    .ok (if t.has_mcc then enrich_with_mcc base else base)

/-! ## Buffer engine (`FRICalculator._calculate_buffer`) -/

/-- The constructor default `essential_ratio_fallback = 0.65`. -/
def essentialRatioFallback : ℚ := 65/100

def sumNet (l : List CTx) : ℚ := (l.map (·.fri_net_amount)).sum

/-- `df[df['transaction_date'] >= calc_date - 90]`. -/
def recentWindow (rows : List CTx) (c : ℤ) : List CTx :=
  rows.filter fun r => decide (c - 90 ≤ r.transaction_date)

/-- Layer 1: `abs(sum)` of negative net amounts over the essential roles. -/
def identified_essential (recent : List CTx) : ℚ :=
  |sumNet (recent.filter fun r =>
    ESSENTIAL_SPENDING_ROLES.contains r.fri_role && decide (r.fri_net_amount < 0))|

/-- Layer 2: `abs(sum)` over rows with `fri_role == 'BUFFER_ESSENTIAL'` and
`needs_enrichment` cleared. -/
def mcc_enriched_essential (recent : List CTx) : ℚ :=
  |sumNet (recent.filter fun r =>
    r.fri_role == "BUFFER_ESSENTIAL" && !r.fri_needs_enrichment && decide (r.fri_net_amount < 0))|

/-- Unclassified spending total. -/
def total_unclassified (recent : List CTx) : ℚ :=
  |sumNet (recent.filter fun r =>
    UNCLASSIFIED_SPENDING_ROLES.contains r.fri_role && decide (r.fri_net_amount < 0))|

/-- `max(1.0, min(3.0, (calc_date - three_months_ago).days / 30.44))`; the
difference is always exactly 90 days. -/
def months_in_window : ℚ := max 1 (min 3 (90 / (3044/100)))

def total_essential_3m (rows : List CTx) (c : ℤ) : ℚ :=
  let recent := recentWindow rows c
  identified_essential recent + mcc_enriched_essential recent +
    total_unclassified recent * essentialRatioFallback

def avg_monthly_essential (rows : List CTx) (c : ℤ) : ℚ :=
  total_essential_3m rows c / months_in_window

/-- `LIFE_STAGE_CONFIG` iteration in `_get_life_stage`: first bracket that
contains the age, else the `ESTABLISHING` default (also for unknown age). -/
def life_stage (age : Option ℤ) : String :=
  match age with
  | none => "ESTABLISHING"
  | some a =>
    if 18 ≤ a ∧ a ≤ 29 then "EARLY_CAREER"
    else if 30 ≤ a ∧ a ≤ 44 then "ESTABLISHING"
    else if 45 ≤ a ∧ a ≤ 59 then "CONSOLIDATING"
    else if 60 ≤ a ∧ a ≤ 99 then "PRESERVING"
    else "ESTABLISHING"

/-- `LIFE_STAGE_CONFIG[stage]['scale_factor']`. -/
def scaleOfStage (s : String) : ℚ :=
  if s == "EARLY_CAREER" then 3333/100
  else if s == "ESTABLISHING" then 1667/100
  else if s == "CONSOLIDATING" then 1111/100
  else 833/100

/-- `FRICalculator._get_scale_factor`. -/
def scale_factor (age : Option ℤ) : ℚ := scaleOfStage (life_stage age)

/-- `FRICalculator._calculate_buffer`: the score
(`liquid_assets = current_balance + savings_balance`). -/
def buffer_score (rows : List CTx) (current_balance savings_balance : ℚ)
    (age : Option ℤ) (c : ℤ) : ℚ :=
  max 0 (if avg_monthly_essential rows c ≤ 0 then 100
         else min 100 ((current_balance + savings_balance) / avg_monthly_essential rows c
                        * scale_factor age))

/-! ## Stability engine (`FRICalculator._calculate_stability`) -/

/-- Income-role inflows in the trailing 180 days. -/
def income_txs (rows : List CTx) (c : ℤ) : List CTx :=
  rows.filter fun r =>
    INCOME_ROLES.contains r.fri_role && decide (c - 180 ≤ r.transaction_date) &&
      decide (0 < r.fri_net_amount)

/-- Sum of income net amounts falling in calendar month `m`
(`groupby(month).sum()` read back at one month, 0 when the month is absent,
which is exactly the `reindex(all_months, fill_value=0)`). -/
def income_in_month (l : List CTx) (m : ℤ) : ℚ :=
  sumNet (l.filter fun r => decide (civilMonth r.transaction_date = m))

/-- The zero-filled monthly income series over
`period_range(calc_date - 180, calc_date, freq='M')`. -/
def monthly_income_series (rows : List CTx) (c : ℤ) : List ℚ :=
  (monthRange (civilMonth (c - 180)) (civilMonth c)).map
    (income_in_month (income_txs rows c))

def meanQ (l : List ℚ) : ℚ := l.sum / (l.length : ℚ)

/-- Sample variance (`np.std(·, ddof=1)` squared). -/
def sampleVar (l : List ℚ) : ℚ :=
  let m := meanQ l
  ((l.map fun x => (x - m)^2).sum) / ((l.length : ℚ) - 1)

/-- The computable observables of `_calculate_stability` (status string and
the statistics; the score itself needs `Real.sqrt` and is defined below). -/
structure StabData where
  status : String
  monthly_income : List ℚ
  mean : ℚ
  varS : ℚ
  months_with_income : ℕ
deriving DecidableEq, Repr

def stability_data (rows : List CTx) (c : ℤ) : StabData :=
  let inc := income_txs rows c
  if inc.isEmpty then ⟨"no_income_detected", [], 0, 0, 0⟩
  else
    let series := monthly_income_series rows c
    let mwi := (series.filter fun v => decide (0 < v)).length
    if series.length < 2 then ⟨"insufficient_history", series, meanQ series, 0, mwi⟩
    else
      let m := meanQ series
      if m ≤ 0 then ⟨"zero_mean_income", series, 0, 0, mwi⟩
      else ⟨"computed", series, m, sampleVar series, mwi⟩

/-- `cv = min(1.0, std_income / mean_income)` with `std = √(sample variance)`. -/
noncomputable def stability_cv (rows : List CTx) (c : ℤ) : ℝ :=
  let d := stability_data rows c
  min 1 (Real.sqrt (d.varS : ℝ) / (d.mean : ℝ))

/-- `FRICalculator._calculate_stability`: the score. -/
noncomputable def stability_score (rows : List CTx) (c : ℤ) : ℝ :=
  let d := stability_data rows c
  if d.status = "computed" then
    max 0 (min 100 (100 * (1 - stability_cv rows c)))
  else if d.status = "zero_mean_income" then 0
  else 50

/-! ## Momentum engine (`FRICalculator._calculate_momentum`) -/

/-- The identified-essential roles used inside `calc_nfr` (note: unlike the
Buffer layer this set has no `MOMENTUM_DEBT_REPAY`). -/
def NFR_ESSENTIAL_ROLES : List String := ["BUFFER_ESSENTIAL", "FEE_BANK", "TAX_LEVY"]

/-- The component dict built by `calc_nfr` (each value `round(·, 2)`ed). -/
structure NfrParts where
  income : ℚ
  essential : ℚ
  discretionary : ℚ
  debt_service : ℚ
  debt_repayment : ℚ
  debt_cost : ℚ
  unclassified_total : ℚ
  unclassified_essential_est : ℚ
  unclassified_discretionary_est : ℚ
deriving DecidableEq, Repr

def emptyNfrParts : NfrParts := ⟨0, 0, 0, 0, 0, 0, 0, 0, 0⟩

/-- The income of a window inside `calc_nfr`: positive inflows from income
roles. -/
def nfr_income (subset : List CTx) : ℚ :=
  sumNet (subset.filter fun r =>
    INCOME_ROLES.contains r.fri_role && decide (0 < r.fri_net_amount))

/-- `calc_nfr(subset)`: NFR value and component breakdown for a window. -/
def calc_nfr (subset : List CTx) : ℚ × NfrParts :=
  if subset.isEmpty then (0, emptyNfrParts)
  else
    let income := nfr_income subset
    let essential_identified := |sumNet (subset.filter fun r =>
      NFR_ESSENTIAL_ROLES.contains r.fri_role && decide (r.fri_net_amount < 0))|
    let discretionary_identified := |sumNet (subset.filter fun r =>
      r.fri_role == "BUFFER_DISCRETIONARY" && decide (r.fri_net_amount < 0))|
    let unclassified := |sumNet (subset.filter fun r =>
      UNCLASSIFIED_SPENDING_ROLES.contains r.fri_role && decide (r.fri_net_amount < 0))|
    let essential_from_unclassified := unclassified * essentialRatioFallback
    let discretionary_from_unclassified := unclassified * (1 - essentialRatioFallback)
    let total_essential := essential_identified + essential_from_unclassified
    let total_discretionary := discretionary_identified + discretionary_from_unclassified
    let debt_repayment := |sumNet (subset.filter fun r =>
      DEBT_DECREASE_ROLES.contains r.fri_role && decide (r.fri_net_amount < 0))|
    let debt_cost := |sumNet (subset.filter fun r =>
      DEBT_COST_ROLES.contains r.fri_role && decide (r.fri_net_amount < 0))|
    let debt_service := debt_repayment + debt_cost
    let nfr := if income ≤ 0 then 0 else
      (income - total_essential - total_discretionary - debt_service) / income
    (nfr, ⟨round2 income, round2 total_essential, round2 total_discretionary,
           round2 debt_service, round2 debt_repayment, round2 debt_cost,
           round2 unclassified, round2 essential_from_unclassified,
           round2 discretionary_from_unclassified⟩)

/-- The parts dict built by `calc_net_debt_change` (values `round(·, 2)`ed). -/
structure DebtParts where
  new_debt : ℚ
  repaid : ℚ
  repaid_outflows : ℚ
  refund_inflows : ℚ
deriving DecidableEq, Repr

/-- Positive inflows tagged with a debt-increase role. -/
def new_debt (subset : List CTx) : ℚ :=
  sumNet (subset.filter fun r =>
    DEBT_INCREASE_ROLES.contains r.fri_role && decide (0 < r.fri_net_amount))

/-- Regular installment payments: negative outflows under the repayment role. -/
def repaid_outflows (subset : List CTx) : ℚ :=
  |sumNet (subset.filter fun r =>
    DEBT_DECREASE_ROLES.contains r.fri_role && decide (r.fri_net_amount < 0))|

/-- BNPL refund inflows: positive credits under the repayment role. -/
def refund_inflows (subset : List CTx) : ℚ :=
  sumNet (subset.filter fun r =>
    DEBT_DECREASE_ROLES.contains r.fri_role && decide (0 < r.fri_net_amount))

/-- `calc_net_debt_change(subset)`: net debt change (unrounded) and parts. -/
def calc_net_debt_change (subset : List CTx) : ℚ × DebtParts :=
  let total_repaid := repaid_outflows subset + refund_inflows subset
  (new_debt subset - total_repaid,
   ⟨round2 (new_debt subset), round2 total_repaid,
    round2 (repaid_outflows subset), round2 (refund_inflows subset)⟩)

/-- Recent window: trailing 90 days. -/
def momentum_recent (rows : List CTx) (c : ℤ) : List CTx :=
  rows.filter fun r => decide (c - 90 ≤ r.transaction_date)

/-- Prior window: 91–180 days back. -/
def momentum_prior (rows : List CTx) (c : ℤ) : List CTx :=
  rows.filter fun r =>
    decide (c - 180 ≤ r.transaction_date) && decide (r.transaction_date < c - 90)

def nfr_recent (rows : List CTx) (c : ℤ) : ℚ := (calc_nfr (momentum_recent rows c)).1

def nfr_prior (rows : List CTx) (c : ℤ) : ℚ := (calc_nfr (momentum_prior rows c)).1

def nfr_recent_parts (rows : List CTx) (c : ℤ) : NfrParts :=
  (calc_nfr (momentum_recent rows c)).2

def nfr_prior_parts (rows : List CTx) (c : ℤ) : NfrParts :=
  (calc_nfr (momentum_prior rows c)).2

/-- `delta_nfr = (nfr_recent - nfr_prior) / 3.0`. -/
def delta_nfr (rows : List CTx) (c : ℤ) : ℚ := (nfr_recent rows c - nfr_prior rows c) / 3

def debt_change_recent (rows : List CTx) (c : ℤ) : ℚ :=
  (calc_net_debt_change (momentum_recent rows c)).1

def debt_change_prior (rows : List CTx) (c : ℤ) : ℚ :=
  (calc_net_debt_change (momentum_prior rows c)).1

/-- The income normalizer: mean of the two windows' (rounded) income
components, falling back to `max(incomes, 1.0)` when that mean is ≤ 0. -/
def avg_income (rows : List CTx) (c : ℤ) : ℚ :=
  let a := ((nfr_recent_parts rows c).income + (nfr_prior_parts rows c).income) / 2
  if a ≤ 0 then max (max (nfr_recent_parts rows c).income (nfr_prior_parts rows c).income) 1
  else a

/-- `delta_d = -(debt_change_recent - debt_change_prior) / avg_income`. -/
def delta_d (rows : List CTx) (c : ℤ) : ℚ :=
  -(debt_change_recent rows c - debt_change_prior rows c) / avg_income rows c

/-- Default `alpha = 0.6`. -/
def alphaDefault : ℚ := 6/10

/-- Default `k = 2.0`. -/
def kDefault : ℚ := 2

/-- `combined_raw = alpha * delta_nfr + (1 - alpha) * delta_d`. -/
def combined_raw (rows : List CTx) (c : ℤ) : ℚ :=
  alphaDefault * delta_nfr rows c + (1 - alphaDefault) * delta_d rows c

/-- `combined_scaled = k * combined_raw`. -/
def combined_scaled (rows : List CTx) (c : ℤ) : ℚ := kDefault * combined_raw rows c

/-- `FRICalculator._calculate_momentum`: the score
`clip(0, 100, 50 + 50 * tanh(combined_scaled))`. -/
noncomputable def momentum_score (rows : List CTx) (c : ℤ) : ℝ :=
  clipR 0 100 (50 + 50 * Real.tanh ((combined_scaled rows c : ℚ) : ℝ))

/-! ## Composite scorer, data mode, data quality (`calculate` and helpers) -/

/-- `max(1, int((calc_date - earliest).days / 30.44))`, or 0 for an empty
frame (`_determine_data_mode`). -/
def months_available (rows : List CTx) (c : ℤ) : ℤ :=
  match (rows.map (·.transaction_date)).min? with
  | none => 0
  | some e => max 1 (intTrunc (((c - e : ℤ) : ℚ) / (3044/100)))

def has_debt (rows : List CTx) : Bool :=
  rows.any fun r =>
    DEBT_INCREASE_ROLES.contains r.fri_role || DEBT_DECREASE_ROLES.contains r.fri_role

/-- `FRICalculator._determine_data_mode` (the mode string). -/
def data_mode (rows : List CTx) (c : ℤ) : String :=
  if rows.isEmpty then "new_user"
  else
    let months := months_available rows c
    if months < 2 then "new_user"
    else if months < 6 then "short_history"
    else if !has_debt rows then "no_debt"
    else "full_data"

/-- `FRICalculator._determine_income_segment`. -/
noncomputable def income_segment (stability : ℝ) : String :=
  if 85 ≤ stability then "STABLE_SALARIED"
  else if 60 ≤ stability then "VARIABLE_INCOME"
  else "HIGH_VOLATILITY"

structure Weights where
  buffer : ℚ
  stability : ℚ
  momentum : ℚ
deriving DecidableEq, Repr

/-- `DATA_MODE_WEIGHTS`. -/
def dataModeWeights (mode : String) : Weights :=
  if mode == "no_debt" then ⟨55/100, 45/100, 0⟩
  else if mode == "short_history" then ⟨60/100, 15/100, 25/100⟩
  else if mode == "new_user" then ⟨70/100, 15/100, 15/100⟩
  else ⟨45/100, 30/100, 25/100⟩

/-- `WEIGHT_CONFIGS`. -/
def weightConfigs (segment : String) : Weights :=
  if segment == "VARIABLE_INCOME" then ⟨50/100, 20/100, 30/100⟩
  else if segment == "HIGH_VOLATILITY" then ⟨55/100, 15/100, 30/100⟩
  else ⟨45/100, 30/100, 25/100⟩

/-- `FRICalculator._select_weights`. -/
def select_weights (mode segment : String) : Weights :=
  if mode ≠ "full_data" then dataModeWeights mode else weightConfigs segment

/-- Months of the frame having at least 5 transactions. -/
def months_with_5plus (rows : List CTx) : ℕ :=
  ((rows.map fun r => civilMonth r.transaction_date).dedup.filter fun m =>
    decide (5 ≤ (rows.filter fun r => decide (civilMonth r.transaction_date = m)).length)).length

/-- The four `_assess_data_quality` sub-scores. -/
def tx_completeness (rows : List CTx) (months : ℤ) : ℚ :=
  if 0 < months then
    min 1 ((months_with_5plus rows : ℚ) / (max 1 months : ℤ))
  else 0

def income_detection (rows : List CTx) (months : ℤ) : ℚ :=
  min 1 (((rows.filter fun r => INCOME_ROLES.contains r.fri_role).length : ℚ) /
    ((max 1 months : ℤ) : ℚ))

def categorization_rate (rows : List CTx) : ℚ :=
  let spending := rows.filter fun r => r.fri_role.startsWith "BUFFER_"
  if spending.isEmpty then 0
  else ((spending.filter fun r => r.fri_role ≠ "BUFFER_SPENDING_UNCLASSIFIED").length : ℚ) /
    (spending.length : ℚ)

def history_depth (months : ℤ) : ℚ := min 1 ((months : ℚ) / 6)

/-- The weighted overall confidence before rounding. -/
def overall_confidence_raw (rows : List CTx) (c : ℤ) : ℚ :=
  let months := months_available rows c
  30/100 * tx_completeness rows months + 25/100 * income_detection rows months +
    25/100 * categorization_rate rows + 20/100 * history_depth months

/-- `data_quality['overall_confidence'] = round(overall, 3)`. -/
def overall_confidence (rows : List CTx) (c : ℤ) : ℚ :=
  round3 (overall_confidence_raw rows c)

/-- The `FRIResult` fields that the claims are about. -/
structure FRIRes where
  total_score : ℝ
  buffer : ℚ
  stability : ℝ
  momentum : ℝ
  weights : Weights
  data_mode : String
  income_segment : String
  confidence : ℚ

/-- `FRICalculator.calculate`: classify, score each component, pick weights,
clip the weighted total, attach confidence. -/
noncomputable def calculate (transactions : List RawTx) (hasMcc : Bool)
    (current_balance : ℚ) (savings_balance : ℚ) (age : Option ℤ) (c : ℤ) : FRIRes :=
  let classified := classify hasMcc transactions
  let mode := data_mode classified c
  let buffer := buffer_score classified current_balance savings_balance age c
  let stability := stability_score classified c
  let momentum := momentum_score classified c
  let segment := income_segment stability
  let w := select_weights mode segment
  let total := clipR 0 100
    ((w.buffer : ℝ) * (buffer : ℚ) + (w.stability : ℝ) * stability + (w.momentum : ℝ) * momentum)
  ⟨total, buffer, stability, momentum, w, mode, segment, overall_confidence classified c⟩

/-! ## Spec-side layered essential spending (for claim C2)

The spec describes §4.2's essential spending as **three additive layers**
with layer (b) being *exactly* the transactions the MCC pass reassigned to
`BUFFER_ESSENTIAL`, so that no transaction is counted twice.  These
definitions follow the spec's words (over the rule-classified rows, before
enrichment) and are compared against the code's `total_essential_3m`. -/

/-- Did the MCC pass reassign this row to `BUFFER_ESSENTIAL`? -/
def reassignedToEssential (r : CTx) : Bool :=
  r.fri_role == "BUFFER_SPENDING_UNCLASSIFIED" && (enrichOne r).fri_role == "BUFFER_ESSENTIAL"

/-- Spec layer (a): roles in the essential-spending set. -/
def spec_layerA (pre : List CTx) (c : ℤ) : ℚ :=
  identified_essential (recentWindow pre c)

/-- Spec layer (b): exactly the enrichment-reassigned transactions. -/
def spec_layerB (pre : List CTx) (c : ℤ) : ℚ :=
  |sumNet ((recentWindow pre c).filter fun r =>
    reassignedToEssential r && decide (r.fri_net_amount < 0))|

/-- Spec layer (c): post-enrichment unclassified total times the fallback
ratio. -/
def spec_layerC (pre : List CTx) (c : ℤ) : ℚ :=
  total_unclassified (recentWindow (enrich_with_mcc pre) c) * essentialRatioFallback

/-- The spec's three-layer total. -/
def spec_total_essential (pre : List CTx) (c : ℤ) : ℚ :=
  spec_layerA pre c + spec_layerB pre c + spec_layerC pre c

/-- The code's total over the same pre-enrichment rows (the Buffer engine
receives the enriched frame). -/
def code_total_essential (pre : List CTx) (c : ℤ) : ℚ :=
  total_essential_3m (enrich_with_mcc pre) c

/-! ## Concrete inputs used by the claims

Day numbers: 20454 = 2026-01-01, 20468 = 2026-01-15, 20500 = 2026-02-16,
20600 = 2026-05-27, 20620 = 2026-06-16, 20634 = 2026-06-30 (calculation
date: the 180-day window is exactly 2026-01-01 … 2026-06-30, six calendar
months), 20680 = 2026-08-15 (after the calculation date). -/

def calcDay : ℤ := 20634

/-- Stability scenario 2: €2000 of income in the first month of the window,
nothing afterwards. -/
def stabScn : List CTx :=
  [⟨20468, none, 2000, 2000, "STABILITY_INCOME", true, true, none⟩]

/-- A single income transaction dated after the calculation date: it passes
the `>= six_months_ago` filter but its month is dropped by the reindex. -/
def futureScn : List CTx :=
  [⟨20680, none, 2000, 2000, "STABILITY_INCOME", true, true, none⟩]

/-- One single month of data (well under two months of history). -/
def oneMonthScn : List CTx :=
  [⟨20620, none, 2000, 2000, "STABILITY_INCOME", true, true, none⟩]

/-- Momentum scenario 4: recent window income 1000 / essential 900
(`NFR = 0.10`), prior window income 1000 / essential 1000 (`NFR = 0`),
no debt activity. -/
def momScn : List CTx :=
  [⟨20600, none, 1000, 1000, "STABILITY_INCOME", true, true, none⟩,
   ⟨20600, none, -900, 900, "BUFFER_ESSENTIAL", true, false, none⟩,
   ⟨20500, none, 1000, 1000, "STABILITY_INCOME", true, true, none⟩,
   ⟨20500, none, -1000, 1000, "BUFFER_ESSENTIAL", true, false, none⟩]

/-- A natively essential transaction (e.g. a `Direct Debit Payment`,
`BUFFER_ESSENTIAL` with `needs_enrichment = False` straight from the
category map) of €100, inside the 90-day window. -/
def ddScn : List CTx :=
  [⟨20600, none, -100, 100, "BUFFER_ESSENTIAL", true, false, none⟩]

/-- A table whose `TransactionType` column is missing but whose amount
columns are present and numeric. -/
def tblNoType : RawTable :=
  ⟨true, false, true, true, true, true, false,
   [⟨some 20600, none, some "ΑΝΑΛΗΨΗ ΤΑΜΙΕΥΤΗΡΙΟΥ ΓΙΑ POS", none, .num 0, .num 25, none⟩]⟩

/-- `Except.ok`-ness of the classifier boundary. -/
def classifyOk : Except String (List CTx) → Bool
  | .ok _ => true
  | .error _ => false

/-! ## Helper lemmas -/

section Proofs

attribute [local semireducible] Rat.add Rat.mul Rat.sub Rat.inv

lemma tanh_lt_one (x : ℝ) : Real.tanh x < 1 := by
  rw [Real.tanh_eq_sinh_div_cosh, div_lt_one (Real.cosh_pos x), Real.sinh_eq, Real.cosh_eq]
  have h := Real.exp_pos (-x)
  linarith

lemma neg_one_lt_tanh (x : ℝ) : -1 < Real.tanh x := by
  rw [Real.tanh_eq_sinh_div_cosh, lt_div_iff₀ (Real.cosh_pos x), Real.sinh_eq, Real.cosh_eq]
  have h := Real.exp_pos x
  linarith

lemma clipR_mem (lo hi x : ℝ) (h : lo ≤ hi) :
    lo ≤ clipR lo hi x ∧ clipR lo hi x ≤ hi :=
  ⟨le_max_left _ _, max_le h (min_le_left _ _)⟩

lemma clipR_eq_self (lo hi x : ℝ) (h1 : lo ≤ x) (h2 : x ≤ hi) : clipR lo hi x = x := by
  unfold clipR
  rw [min_eq_right h2, max_eq_right h1]

lemma buffer_score_mem (rows : List CTx) (cb sb : ℚ) (age : Option ℤ) (c : ℤ) :
    0 ≤ buffer_score rows cb sb age c ∧ buffer_score rows cb sb age c ≤ 100 := by
  unfold buffer_score
  refine ⟨le_max_left 0 _, max_le (by norm_num) ?_⟩
  split_ifs with h
  · exact le_refl _
  · exact min_le_left _ _

lemma stability_score_mem (rows : List CTx) (c : ℤ) :
    0 ≤ stability_score rows c ∧ stability_score rows c ≤ 100 := by
  simp only [stability_score]
  split_ifs with h1 h2
  · exact ⟨le_max_left 0 _, max_le (by norm_num) (min_le_left _ _)⟩
  · exact ⟨le_refl 0, by norm_num⟩
  · exact ⟨by norm_num, by norm_num⟩

lemma momentum_score_mem (rows : List CTx) (c : ℤ) :
    0 ≤ momentum_score rows c ∧ momentum_score rows c ≤ 100 :=
  clipR_mem 0 100 _ (by norm_num)

lemma bankersRound_nonneg {q : ℚ} (h : 0 ≤ q) : 0 ≤ bankersRound q := by
  simp only [bankersRound]
  have h0 : (0 : ℤ) ≤ ⌊q⌋ := Int.floor_nonneg.mpr h
  split_ifs <;> omega

lemma bankersRound_le {q : ℚ} {N : ℤ} (h : q ≤ N) : bankersRound q ≤ N := by
  simp only [bankersRound]
  have hf : ⌊q⌋ ≤ N := by
    have := Int.floor_mono h
    simpa using this
  have hfl : (⌊q⌋ : ℚ) ≤ q := Int.floor_le q
  split_ifs with hlt hgt heven
  · exact hf
  · -- q - ⌊q⌋ > 1/2, so ⌊q⌋ + 1/2 < q ≤ N, hence ⌊q⌋ < N
    have : (⌊q⌋ : ℚ) + 1/2 < (N : ℚ) := by
      have hq : (q : ℚ) ≤ (N : ℚ) := by exact_mod_cast h
      linarith
    have : ⌊q⌋ < N := by exact_mod_cast (by linarith : (⌊q⌋ : ℚ) < (N : ℚ))
    omega
  · -- q - ⌊q⌋ = 1/2 exactly (half-even, even case): result is ⌊q⌋
    exact hf
  · -- half-even, odd case: q = ⌊q⌋ + 1/2 < N + 1, and ⌊q⌋ ≠ N since N - 1/2 is not ≥ q… derive ⌊q⌋ < N
    have hhalf : q - (⌊q⌋ : ℚ) = 1/2 := le_antisymm (not_lt.mp hgt) (not_lt.mp hlt)
    have : (⌊q⌋ : ℚ) < (N : ℚ) := by
      have hq : (q : ℚ) ≤ (N : ℚ) := by exact_mod_cast h
      linarith
    have : ⌊q⌋ < N := by exact_mod_cast this
    omega

lemma round3_mem {q : ℚ} (h0 : 0 ≤ q) (h1 : q ≤ 1) : 0 ≤ round3 q ∧ round3 q ≤ 1 := by
  unfold round3
  have hb0 : 0 ≤ bankersRound (q * 1000) := bankersRound_nonneg (by linarith)
  have hb1 : bankersRound (q * 1000) ≤ (1000 : ℤ) := bankersRound_le (by push_cast; linarith)
  constructor
  · positivity
  · rw [div_le_one (by norm_num)]
    exact_mod_cast hb1

lemma round2_nonneg {q : ℚ} (h : 0 ≤ q) : 0 ≤ round2 q := by
  unfold round2
  have := bankersRound_nonneg (q := q * 100) (by linarith)
  positivity

lemma months_available_nonneg (rows : List CTx) (c : ℤ) : 0 ≤ months_available rows c := by
  unfold months_available
  cases h : (rows.map (·.transaction_date)).min? with
  | none => exact le_refl 0
  | some e => exact le_trans zero_le_one (le_max_left 1 _)

lemma maxOneCast_pos (months : ℤ) : (0 : ℚ) < ((max 1 months : ℤ) : ℚ) := by
  have h1 : (1 : ℤ) ≤ max 1 months := le_max_left _ _
  exact_mod_cast lt_of_lt_of_le zero_lt_one h1

lemma tx_completeness_mem (rows : List CTx) (months : ℤ) :
    0 ≤ tx_completeness rows months ∧ tx_completeness rows months ≤ 1 := by
  unfold tx_completeness
  split_ifs with h
  · exact ⟨le_min (by norm_num)
      (div_nonneg (by positivity) (maxOneCast_pos months).le), min_le_left _ _⟩
  · norm_num

lemma income_detection_mem (rows : List CTx) (months : ℤ) :
    0 ≤ income_detection rows months ∧ income_detection rows months ≤ 1 := by
  unfold income_detection
  exact ⟨le_min (by norm_num)
    (div_nonneg (by positivity) (maxOneCast_pos months).le), min_le_left _ _⟩

lemma categorization_rate_mem (rows : List CTx) :
    0 ≤ categorization_rate rows ∧ categorization_rate rows ≤ 1 := by
  simp only [categorization_rate]
  split_ifs with h
  · norm_num
  · have hne : (rows.filter fun r => r.fri_role.startsWith "BUFFER_") ≠ [] := by
      intro he
      rw [he] at h
      exact h rfl
    have hpos : 0 < (rows.filter fun r => r.fri_role.startsWith "BUFFER_").length :=
      List.length_pos.mpr hne
    constructor
    · exact div_nonneg (Nat.cast_nonneg _) (Nat.cast_nonneg _)
    · rw [div_le_one (Nat.cast_pos.mpr hpos)]
      exact Nat.cast_le.mpr (List.length_filter_le _ _)

lemma history_depth_mem {months : ℤ} (h : 0 ≤ months) :
    0 ≤ history_depth months ∧ history_depth months ≤ 1 := by
  unfold history_depth
  exact ⟨le_min (by norm_num)
    (div_nonneg (by exact_mod_cast h) (by norm_num)), min_le_left _ _⟩

lemma overall_confidence_mem (rows : List CTx) (c : ℤ) :
    0 ≤ overall_confidence rows c ∧ overall_confidence rows c ≤ 1 := by
  have ha := tx_completeness_mem rows (months_available rows c)
  have hb := income_detection_mem rows (months_available rows c)
  have hc := categorization_rate_mem rows
  have hd := history_depth_mem (months_available_nonneg rows c)
  have hraw : 0 ≤ overall_confidence_raw rows c ∧ overall_confidence_raw rows c ≤ 1 := by
    unfold overall_confidence_raw
    constructor <;> [nlinarith [ha.1, hb.1, hc.1, hd.1]; nlinarith [ha.2, hb.2, hc.2, hd.2]]
  exact round3_mem hraw.1 hraw.2

lemma sum_filter_pos_nonneg (l : List CTx) (p : CTx → Bool) :
    0 ≤ sumNet (l.filter fun r => p r && decide (0 < r.fri_net_amount)) := by
  unfold sumNet
  apply List.sum_nonneg
  intro x hx
  rw [List.mem_map] at hx
  obtain ⟨r, hr, rfl⟩ := hx
  rw [List.mem_filter] at hr
  have h2 : decide (0 < r.fri_net_amount) = true := (Bool.and_eq_true _ _ |>.mp hr.2).2
  exact (of_decide_eq_true h2).le

lemma calc_nfr_income_nonneg (subset : List CTx) : 0 ≤ (calc_nfr subset).2.income := by
  simp only [calc_nfr]
  split_ifs with h h2
  · exact le_refl 0
  · exact round2_nonneg (sum_filter_pos_nonneg _ _)
  · exact round2_nonneg (sum_filter_pos_nonneg _ _)

/-- When the sample statistics are degenerate enough (`mean² ≤ variance`),
the coefficient of variation caps at 1 and the Stability score is 0. -/
lemma stability_score_of_capped (rows : List CTx) (c : ℤ)
    (hstat : (stability_data rows c).status = "computed")
    (hmean : 0 < (stability_data rows c).mean)
    (hvar : ((stability_data rows c).mean) ^ 2 ≤ (stability_data rows c).varS) :
    stability_cv rows c = 1 ∧ stability_score rows c = 0 := by
  have hm : (0 : ℝ) < ((stability_data rows c).mean : ℝ) := by exact_mod_cast hmean
  have hle : ((stability_data rows c).mean : ℝ) ≤ Real.sqrt ((stability_data rows c).varS : ℝ) := by
    rw [Real.le_sqrt' hm]
    exact_mod_cast hvar
  have hcv : stability_cv rows c = 1 := by
    simp only [stability_cv]
    exact min_eq_left ((one_le_div hm).mpr hle)
  refine ⟨hcv, ?_⟩
  simp only [stability_score]
  rw [if_pos hstat, hcv]
  norm_num

/-! ### Calendar facts: a 180-day interval always crosses a month boundary -/

lemma cmDoe_mem (d : ℤ) : 0 ≤ cmDoe d ∧ cmDoe d < 146097 := by
  unfold cmDoe cmEra
  omega

/-- Division-free core of the Hinnant year-of-era / day-of-year bounds.
Every quotient of the algorithm is an explicit variable pinned by its floor
characterization, so each step below is small linear integer arithmetic:
`f, g, i` are the correction quotients of the day-of-era `a`, `w` the
corrected day count, `b` the year-of-era, `c, e` the leap corrections of
the year start, and `1460 * c ≤ w < 1460 * c + 1460` is the composed floor
characterization `c = w / 1460` of `c = (w / 365) / 4`. -/
lemma yoe_doy_core (a f g i w b c e : ℤ)
    (h0 : 0 ≤ a) (h1 : a < 146097)
    (hf1 : 1460 * f ≤ a) (hf2 : a < 1460 * f + 1460)
    (hg1 : 36524 * g ≤ a) (hg2 : a < 36524 * g + 36524)
    (hi1 : 146096 * i ≤ a) (hi2 : a < 146096 * i + 146096)
    (hw : w = a - f + g - i)
    (hb1 : 365 * b ≤ w) (hb2 : w < 365 * b + 365)
    (hc1 : 4 * c ≤ b) (hc2 : b < 4 * c + 4)
    (he1 : 100 * e ≤ b) (he2 : b < 100 * e + 100)
    (hc3 : 1460 * c ≤ w) (hc4 : w < 1460 * c + 1460) :
    0 ≤ b ∧ b ≤ 399 ∧ 0 ≤ a - (365 * b + c - e) ∧ a - (365 * b + c - e) ≤ 365 := by
  by_cases hlast : a = 146096
  · subst hlast
    omega
  · have hi0 : i = 0 := by omega
    subst hi0
    have hg03 : 0 ≤ g ∧ g ≤ 3 := by omega
    have hf100 : 0 ≤ f ∧ f ≤ 100 := by omega
    have hgf : g ≤ f := by omega
    have hwa : 0 ≤ w ∧ w ≤ a := by omega
    have hb0 : 0 ≤ b := by omega
    have hce0 : 0 ≤ c ∧ 0 ≤ e := by omega
    have hcf : c ≤ f := by omega
    have hfc1 : f ≤ c + 1 := by omega
    have hb100 : 100 * g ≤ b := by
      have hg4 : g = 0 ∨ g = 1 ∨ g = 2 ∨ g = 3 := by omega
      rcases hg4 with rfl | rfl | rfl | rfl <;> omega
    have hb99 : b ≤ 100 * g + 99 := by
      have hg4 : g = 0 ∨ g = 1 ∨ g = 2 ∨ g = 3 := by omega
      rcases hg4 with rfl | rfl | rfl | rfl <;> omega
    have heg : e = g := by omega
    refine ⟨hb0, by omega, by omega, by omega⟩

lemma cmYoe_doy_bounds (d : ℤ) :
    0 ≤ cmYoe d ∧ cmYoe d ≤ 399 ∧ 0 ≤ cmDoy d ∧ cmDoy d ≤ 365 := by
  obtain ⟨h0, h1⟩ := cmDoe_mem d
  have hf : 1460 * (cmDoe d / 1460) ≤ cmDoe d
      ∧ cmDoe d < 1460 * (cmDoe d / 1460) + 1460 := by omega
  have hg : 36524 * (cmDoe d / 36524) ≤ cmDoe d
      ∧ cmDoe d < 36524 * (cmDoe d / 36524) + 36524 := by omega
  have hi : 146096 * (cmDoe d / 146096) ≤ cmDoe d
      ∧ cmDoe d < 146096 * (cmDoe d / 146096) + 146096 := by omega
  have hb : 365 * cmYoe d
        ≤ cmDoe d - cmDoe d / 1460 + cmDoe d / 36524 - cmDoe d / 146096
      ∧ cmDoe d - cmDoe d / 1460 + cmDoe d / 36524 - cmDoe d / 146096
        < 365 * cmYoe d + 365 := by
    unfold cmYoe
    omega
  have hc : 4 * (cmYoe d / 4) ≤ cmYoe d ∧ cmYoe d < 4 * (cmYoe d / 4) + 4 := by
    omega
  have he : 100 * (cmYoe d / 100) ≤ cmYoe d
      ∧ cmYoe d < 100 * (cmYoe d / 100) + 100 := by omega
  have hc2 : 1460 * (cmYoe d / 4)
        ≤ cmDoe d - cmDoe d / 1460 + cmDoe d / 36524 - cmDoe d / 146096
      ∧ cmDoe d - cmDoe d / 1460 + cmDoe d / 36524 - cmDoe d / 146096
        < 1460 * (cmYoe d / 4) + 1460 := by
    unfold cmYoe
    omega
  have hcore := yoe_doy_core (cmDoe d) (cmDoe d / 1460) (cmDoe d / 36524)
    (cmDoe d / 146096)
    (cmDoe d - cmDoe d / 1460 + cmDoe d / 36524 - cmDoe d / 146096)
    (cmYoe d) (cmYoe d / 4) (cmYoe d / 100)
    h0 h1 hf.1 hf.2 hg.1 hg.2 hi.1 hi.2 rfl hb.1 hb.2 hc.1 hc.2 he.1 he.2
    hc2.1 hc2.2
  refine ⟨hcore.1, hcore.2.1, ?_, ?_⟩
  · unfold cmDoy
    exact hcore.2.2.1
  · unfold cmDoy
    exact hcore.2.2.2

lemma cmMp_mem (d : ℤ) : 0 ≤ cmMp d ∧ cmMp d ≤ 11 := by
  have h := cmYoe_doy_bounds d
  unfold cmMp
  omega

/-- `civilMonth` written over the named intermediate quantities: after
unfolding, both sides are the same term. -/
lemma civilMonth_structured (d : ℤ) :
    civilMonth d =
      (if (if cmMp d < 10 then cmMp d + 3 else cmMp d - 9) ≤ 2
        then cmYoe d + cmEra d * 400 + 1 else cmYoe d + cmEra d * 400) * 12
      + ((if cmMp d < 10 then cmMp d + 3 else cmMp d - 9) - 1) := by
  simp only [civilMonth, cmMp, cmDoy, cmYoe, cmDoe, cmEra]

/-- The two conditionals of `civilMonth` collapse: both the `mp < 10` and
the `m ≤ 2` branch produce `12 * (yoe + era * 400) + mp + 2`. -/
lemma civilMonth_collapse (d : ℤ) :
    civilMonth d = 12 * (cmYoe d + cmEra d * 400) + cmMp d + 2 := by
  have hmp := cmMp_mem d
  rw [civilMonth_structured d]
  split_ifs <;> omega

/-- Stepping 180 days either stays in the era (day-of-era shifts by 180) or
rolls into the next era. -/
lemma cmEraDoe_step (d : ℤ) :
    (cmDoe d + 180 < 146097 ∧ cmEra (d + 180) = cmEra d
      ∧ cmDoe (d + 180) = cmDoe d + 180)
    ∨ (146097 ≤ cmDoe d + 180 ∧ cmEra (d + 180) = cmEra d + 1
      ∧ cmDoe (d + 180) = cmDoe d + 180 - 146097) := by
  unfold cmDoe cmEra
  omega

lemma cmYoe_step_mono (d : ℤ) (h : cmDoe (d + 180) = cmDoe d + 180) :
    cmYoe d ≤ cmYoe (d + 180) := by
  unfold cmYoe
  rw [h]
  apply Int.ediv_le_ediv (by norm_num)
  have h1 : (cmDoe d + 180) / 1460 ≤ cmDoe d / 1460 + 1 := by omega
  have h2 : cmDoe d / 36524 ≤ (cmDoe d + 180) / 36524 := by omega
  have h3 : (cmDoe d + 180) / 146096 ≤ cmDoe d / 146096 + 1 := by omega
  linarith

lemma cmDoy_step (d : ℤ) (hdoe : cmDoe (d + 180) = cmDoe d + 180)
    (hyoe : cmYoe (d + 180) = cmYoe d) : cmDoy (d + 180) = cmDoy d + 180 := by
  unfold cmDoy
  rw [hdoe, hyoe]
  ring

lemma cmMp_step (d : ℤ) (h : cmDoy (d + 180) = cmDoy d + 180) :
    cmMp d + 5 ≤ cmMp (d + 180) := by
  unfold cmMp
  rw [h]
  omega

/-- Any 180-day step advances the month index by at least one: a 180-day
window always contains a calendar-month boundary. -/
lemma civilMonth_gap (d : ℤ) : civilMonth d + 1 ≤ civilMonth (d + 180) := by
  rw [civilMonth_collapse d, civilMonth_collapse (d + 180)]
  have hy1 := cmYoe_doy_bounds d
  have hy2 := cmYoe_doy_bounds (d + 180)
  have hm1 := cmMp_mem d
  have hm2 := cmMp_mem (d + 180)
  rcases cmEraDoe_step d with ⟨h0, hera, hdoe⟩ | ⟨h0, hera, hdoe⟩
  · have hyoe := cmYoe_step_mono d hdoe
    by_cases heq : cmYoe (d + 180) = cmYoe d
    · have hmp := cmMp_step d (cmDoy_step d hdoe heq)
      rw [hera, heq]
      omega
    · rw [hera]
      omega
  · rw [hera]
    omega

/-- The reindexed month range of a 180-day window always has at least two
entries (in fact at least six; two is all the engine's branch needs). -/
lemma monthly_income_series_len (rows : List CTx) (c : ℤ) :
    2 ≤ (monthly_income_series rows c).length := by
  have hlen : (monthly_income_series rows c).length
      = (civilMonth c - civilMonth (c - 180) + 1).toNat := by
    unfold monthly_income_series monthRange
    rw [List.length_map, List.length_map, bind_pure_comp, List.map_eq_map,
      List.length_map, List.length_range]
  have h := civilMonth_gap (c - 180)
  rw [show c - 180 + 180 = c by ring] at h
  omega

lemma income_txs_pos (rows : List CTx) (c : ℤ) :
    ∀ r ∈ income_txs rows c, 0 < r.fri_net_amount := by
  intro r hr
  unfold income_txs at hr
  rw [List.mem_filter] at hr
  have h := hr.2
  rw [Bool.and_eq_true, Bool.and_eq_true] at h
  exact of_decide_eq_true h.2

lemma income_in_month_nonneg (l : List CTx) (m : ℤ)
    (hpos : ∀ r ∈ l, 0 < r.fri_net_amount) : 0 ≤ income_in_month l m := by
  unfold income_in_month sumNet
  apply List.sum_nonneg
  intro x hx
  rw [List.mem_map] at hx
  obtain ⟨r, hr, rfl⟩ := hx
  exact (hpos r (List.mem_filter.mp hr).1).le

lemma income_in_month_pos (l : List CTx) (r : CTx) (hr : r ∈ l)
    (hpos : ∀ x ∈ l, 0 < x.fri_net_amount) :
    0 < income_in_month l (civilMonth r.transaction_date) := by
  unfold income_in_month sumNet
  have hmem : r ∈ l.filter
      (fun x => decide (civilMonth x.transaction_date = civilMonth r.transaction_date)) :=
    List.mem_filter.mpr ⟨hr, by simp⟩
  have hall : ∀ q ∈ (l.filter
      (fun x => decide (civilMonth x.transaction_date = civilMonth r.transaction_date))).map
        (·.fri_net_amount), 0 ≤ q := by
    intro q hq
    rw [List.mem_map] at hq
    obtain ⟨x, hx, rfl⟩ := hq
    exact (hpos x (List.mem_filter.mp hx).1).le
  have hin : r.fri_net_amount ∈ (l.filter
      (fun x => decide (civilMonth x.transaction_date = civilMonth r.transaction_date))).map
        (·.fri_net_amount) := List.mem_map_of_mem _ hmem
  exact lt_of_lt_of_le (hpos r hr) (List.single_le_sum hall _ hin)

/-- `zero_mean_income` forces every income transaction's month outside the
reindexed range: an in-range income month would make the zero-filled series
sum — hence the mean — positive. -/
lemma zero_mean_only_out_of_range (rows : List CTx) (c : ℤ)
    (hst : (stability_data rows c).status = "zero_mean_income") :
    ∀ r ∈ income_txs rows c,
      civilMonth r.transaction_date ∉ monthRange (civilMonth (c - 180)) (civilMonth c) := by
  intro r hr hmem
  have hpos := income_txs_pos rows c
  simp only [stability_data] at hst
  split_ifs at hst with hA hB hC
  · simp at hst
  · simp at hst
  · have hentry_pos : 0 < income_in_month (income_txs rows c) (civilMonth r.transaction_date) :=
      income_in_month_pos _ r hr hpos
    have hentry_mem : income_in_month (income_txs rows c) (civilMonth r.transaction_date)
        ∈ monthly_income_series rows c := by
      unfold monthly_income_series
      exact List.mem_map_of_mem _ hmem
    have hall : ∀ x ∈ monthly_income_series rows c, 0 ≤ x := by
      intro x hx
      unfold monthly_income_series at hx
      rw [List.mem_map] at hx
      obtain ⟨m, hm, rfl⟩ := hx
      exact income_in_month_nonneg _ _ hpos
    have hsum : 0 < (monthly_income_series rows c).sum :=
      lt_of_lt_of_le hentry_pos (List.single_le_sum hall _ hentry_mem)
    have hlen : 0 < (monthly_income_series rows c).length :=
      List.length_pos_of_mem hentry_mem
    have hmean : 0 < meanQ (monthly_income_series rows c) :=
      div_pos hsum (by exact_mod_cast hlen)
    exact absurd hC (not_le.mpr hmean)
  · simp at hst

/-! ## Claim theorems -/

/-- Claim **C1**: for every input transaction set, balances, optional age and
calculation date, `calculate` returns a total score in [0,100], component
scores (buffer, stability, momentum) each in [0,100], and a confidence in
[0,1]. -/
theorem calculate_score_bounds (transactions : List RawTx) (hasMcc : Bool)
    (current_balance savings_balance : ℚ) (age : Option ℤ) (c : ℤ) :
    (0 ≤ (calculate transactions hasMcc current_balance savings_balance age c).total_score ∧
      (calculate transactions hasMcc current_balance savings_balance age c).total_score ≤ 100) ∧
    (0 ≤ (calculate transactions hasMcc current_balance savings_balance age c).buffer ∧
      (calculate transactions hasMcc current_balance savings_balance age c).buffer ≤ 100) ∧
    (0 ≤ (calculate transactions hasMcc current_balance savings_balance age c).stability ∧
      (calculate transactions hasMcc current_balance savings_balance age c).stability ≤ 100) ∧
    (0 ≤ (calculate transactions hasMcc current_balance savings_balance age c).momentum ∧
      (calculate transactions hasMcc current_balance savings_balance age c).momentum ≤ 100) ∧
    (0 ≤ (calculate transactions hasMcc current_balance savings_balance age c).confidence ∧
      (calculate transactions hasMcc current_balance savings_balance age c).confidence ≤ 1) := by
  simp only [calculate]
  exact ⟨clipR_mem 0 100 _ (by norm_num), buffer_score_mem _ _ _ _ _,
    stability_score_mem _ _, momentum_score_mem _ _, overall_confidence_mem _ _⟩

/-- Claim **C3**: the Momentum score is
`clip(0, 100, 50 + 50·tanh(k·(α·Δnfr + (1−α)·Δd)))` with the defaults
`α = 0.6`, `k = 2.0`; when the combined signal is 0 the score is exactly 50;
and on the scenario with `NFR_recent = 0.10`, `NFR_prior = 0` and no debt
activity the score is exactly `50 + 50·tanh(0.04)` (≈ 51.998). -/
theorem momentum_tanh_formula :
    (∀ (rows : List CTx) (c : ℤ),
      momentum_score rows c
        = clipR 0 100 (50 + 50 * Real.tanh
            (((2 * (6/10 * delta_nfr rows c + (1 - 6/10) * delta_d rows c) : ℚ) : ℝ))))
    ∧ (∀ (rows : List CTx) (c : ℤ),
        6/10 * delta_nfr rows c + (1 - 6/10) * delta_d rows c = 0 →
        momentum_score rows c = 50)
    ∧ momentum_score momScn calcDay = 50 + 50 * Real.tanh ((1/25 : ℚ) : ℝ) := by
  refine ⟨fun rows c => rfl, fun rows c h => ?_, ?_⟩
  · have hc : combined_scaled rows c = 0 := by
      unfold combined_scaled combined_raw kDefault alphaDefault
      rw [h]
      ring
    unfold momentum_score
    rw [hc]
    push_cast
    rw [Real.tanh_zero]
    rw [show (50 : ℝ) + 50 * 0 = 50 by ring]
    exact clipR_eq_self 0 100 50 (by norm_num) (by norm_num)
  · have hc : combined_scaled momScn calcDay = 1/25 := by decide
    unfold momentum_score
    rw [hc]
    refine clipR_eq_self _ _ _ ?_ ?_
    · nlinarith [neg_one_lt_tanh (((1/25 : ℚ) : ℝ))]
    · nlinarith [tanh_lt_one (((1/25 : ℚ) : ℝ))]

/-- Witness for `momentum_tanh_formula`: the empty transaction set has
combined signal 0, and its momentum is exactly 50. -/
theorem momentum_tanh_formula_witness : momentum_score [] calcDay = 50 :=
  momentum_tanh_formula.2.1 [] calcDay (by decide)

/-- Claim **C10**: any age outside every configured bracket (below 18 or above
99) falls through `_get_life_stage` to the `ESTABLISHING` default with
scale factor 16.67 — identical to the unknown-age default. -/
theorem life_stage_out_of_range (a : ℤ) (h : a < 18 ∨ 99 < a) :
    life_stage (some a) = "ESTABLISHING" ∧ scale_factor (some a) = 1667/100 ∧
    life_stage (some a) = life_stage none ∧ scale_factor (some a) = scale_factor none := by
  have hs : life_stage (some a) = "ESTABLISHING" := by
    simp only [life_stage]
    rcases h with h | h <;> (split_ifs with h1 h2 h3 h4 <;> first | rfl | omega)
  refine ⟨hs, ?_, hs, ?_⟩
  · unfold scale_factor
    rw [hs]
    decide
  · unfold scale_factor
    rw [hs]
    rfl

/-- Witness for `life_stage_out_of_range` at age 17. -/
theorem life_stage_out_of_range_witness :
    life_stage (some 17) = "ESTABLISHING" ∧ scale_factor (some 17) = 1667/100 ∧
    life_stage (some 17) = life_stage none ∧ scale_factor (some 17) = scale_factor none :=
  life_stage_out_of_range 17 (Or.inl (by norm_num))

/-- Claim **C8**: the MCC-enrichment pass is a per-row map that only modifies rows
whose role is `BUFFER_SPENDING_UNCLASSIFIED` and whose MCC code is present:
a matched code reassigns to `BUFFER_ESSENTIAL` or `BUFFER_DISCRETIONARY`
and clears `needs_enrichment`, any other row is returned unchanged, and an
unclassified row whose code matches neither set keeps its role. -/
theorem mcc_enrichment_invariant :
    (∀ rows, enrich_with_mcc rows = rows.map enrichOne)
    ∧ (∀ r : CTx, r.fri_role ≠ "BUFFER_SPENDING_UNCLASSIFIED" → enrichOne r = r)
    ∧ (∀ r : CTx, r.mcc_code = none → enrichOne r = r)
    ∧ (∀ (r : CTx) (s : String),
        r.fri_role = "BUFFER_SPENDING_UNCLASSIFIED" → r.mcc_code = some s →
        ((ESSENTIAL_MCC_CODES.contains (pyStrip s) = true →
           enrichOne r = { r with fri_role := "BUFFER_ESSENTIAL", fri_essential := true,
                                  fri_needs_enrichment := false })
         ∧ (ESSENTIAL_MCC_CODES.contains (pyStrip s) = false →
            DISCRETIONARY_MCC_CODES.contains (pyStrip s) = true →
           enrichOne r = { r with fri_role := "BUFFER_DISCRETIONARY", fri_essential := false,
                                  fri_needs_enrichment := false })
         ∧ (ESSENTIAL_MCC_CODES.contains (pyStrip s) = false →
            DISCRETIONARY_MCC_CODES.contains (pyStrip s) = false → enrichOne r = r))) := by
  refine ⟨fun rows => rfl, ?_, ?_, ?_⟩
  · intro r h
    unfold enrichOne
    rw [if_neg]
    simp only [beq_iff_eq]
    exact h
  · intro r h
    unfold enrichOne
    rw [h]
    split_ifs <;> rfl
  · intro r s hrole hmcc
    have hred : enrichOne r
        = (if ESSENTIAL_MCC_CODES.contains (pyStrip s) then
             { r with fri_role := "BUFFER_ESSENTIAL", fri_essential := true,
                      fri_needs_enrichment := false }
           else if DISCRETIONARY_MCC_CODES.contains (pyStrip s) then
             { r with fri_role := "BUFFER_DISCRETIONARY", fri_essential := false,
                      fri_needs_enrichment := false }
           else r) := by
      unfold enrichOne
      rw [hmcc, if_pos (by simp [hrole])]
    rw [hred]
    refine ⟨fun he => ?_, fun he hd => ?_, fun he hd => ?_⟩
    · rw [if_pos he]
    · rw [if_neg (fun hc => Bool.false_ne_true (he ▸ hc)), if_pos hd]
    · rw [if_neg (fun hc => Bool.false_ne_true (he ▸ hc)),
          if_neg (fun hc => Bool.false_ne_true (hd ▸ hc))]

/-- Witness for `mcc_enrichment_invariant`: an unclassified row with MCC
5411 (groceries) is reassigned to `BUFFER_ESSENTIAL`. -/
theorem mcc_enrichment_invariant_witness :
    enrichOne ⟨0, none, -50, 50, "BUFFER_SPENDING_UNCLASSIFIED", true, true, some "5411"⟩
      = ⟨0, none, -50, 50, "BUFFER_ESSENTIAL", true, false, some "5411"⟩ :=
  (mcc_enrichment_invariant.2.2.2 _ "5411" rfl rfl).1 (by decide)

/-- Claim **C4**: the Stability engine's monthly series is reindexed over every
month of the 180-day window (zero-filling months without income), and on
the scenario with €2000 of income in month 1 of the window and nothing
later the series is `[2000, 0, 0, 0, 0, 0]`, the mean is `1000/3`
(€333.33), the coefficient of variation caps at 1, and the score is 0. -/
theorem stability_zero_fill :
    (∀ (rows : List CTx) (c : ℤ), income_txs rows c ≠ [] →
      (stability_data rows c).monthly_income
        = (monthRange (civilMonth (c - 180)) (civilMonth c)).map
            (income_in_month (income_txs rows c)))
    ∧ (∀ (rows : List CTx) (c m : ℤ),
        (∀ r ∈ income_txs rows c, civilMonth r.transaction_date ≠ m) →
        income_in_month (income_txs rows c) m = 0)
    ∧ (stability_data stabScn calcDay).monthly_income = [2000, 0, 0, 0, 0, 0]
    ∧ (stability_data stabScn calcDay).mean = 1000/3
    ∧ round2 (stability_data stabScn calcDay).mean = 33333/100
    ∧ stability_cv stabScn calcDay = 1
    ∧ stability_score stabScn calcDay = 0 := by
  have hcap := stability_score_of_capped stabScn calcDay (by decide) (by decide) (by decide)
  refine ⟨?_, ?_, by decide, by decide, by decide, hcap.1, hcap.2⟩
  · intro rows c h
    simp only [stability_data]
    split_ifs with h1 h2 h3 <;>
      first
      | rfl
      | exact absurd (List.isEmpty_iff.mp h1) h
  · intro rows c m h
    have hf : (income_txs rows c).filter
        (fun r => decide (civilMonth r.transaction_date = m)) = [] := by
      rw [List.filter_eq_nil_iff]
      intro r hr
      simpa using h r hr
    unfold income_in_month sumNet
    rw [hf]
    rfl

/-- Witness for `stability_zero_fill`: the scenario's series is exactly the
zero-filled reindex over the six months of the window. -/
theorem stability_zero_fill_witness :
    (stability_data stabScn calcDay).monthly_income
      = (monthRange (civilMonth (calcDay - 180)) (civilMonth calcDay)).map
          (income_in_month (income_txs stabScn calcDay)) :=
  stability_zero_fill.1 stabScn calcDay (by decide)

/-- Counterexample to claim **C6** as stated: with a single month of data (well
under two months of history) the Stability engine does *not* return
`(50, insufficient_history)` — the zero-filled series already has six
entries, so it proceeds to compute and returns score 0 with status
`computed`. -/
theorem stability_short_history_not_insufficient :
    (stability_data oneMonthScn calcDay).status = "computed"
      ∧ stability_score oneMonthScn calcDay = 0 :=
  ⟨by decide, (stability_score_of_capped oneMonthScn calcDay (by decide) (by decide)
      (by decide)).2⟩

/-- Claim **C6 (amended)**: `no_income_detected` (score 50) and
`zero_mean_income` (score 0) are reachable; for *every* transaction set and
*every* calculation date the `insufficient_history` status is unreachable,
because its branch requires the zero-filled series to have fewer than 2
entries while the 180-day reindex always crosses a month boundary; the
`zero_mean_income` status can arise *only* when every income transaction's
month lies outside the reindexed range (e.g. income dated after the
calculation date); and fewer than two months of actual data yields a
computed score instead of `insufficient_history`. -/
theorem stability_status_semantics :
    (stability_data ([] : List CTx) calcDay).status = "no_income_detected"
    ∧ stability_score [] calcDay = 50
    ∧ (stability_data futureScn calcDay).status = "zero_mean_income"
    ∧ stability_score futureScn calcDay = 0
    ∧ (∀ (rows : List CTx) (c : ℤ),
        ((stability_data rows c).status == "insufficient_history") = false)
    ∧ (∀ (rows : List CTx) (c : ℤ),
        (stability_data rows c).status = "zero_mean_income" →
        ∀ r ∈ income_txs rows c,
          civilMonth r.transaction_date ∉ monthRange (civilMonth (c - 180)) (civilMonth c))
    ∧ (stability_data oneMonthScn calcDay).status = "computed"
    ∧ stability_score oneMonthScn calcDay = 0 := by
  have h1 : (stability_data ([] : List CTx) calcDay).status = "no_income_detected" := by decide
  have h3 : (stability_data futureScn calcDay).status = "zero_mean_income" := by decide
  refine ⟨h1, ?_, h3, ?_, ?_, zero_mean_only_out_of_range, by decide,
    (stability_score_of_capped oneMonthScn calcDay (by decide) (by decide) (by decide)).2⟩
  · simp only [stability_score]
    rw [if_neg (by rw [h1]; decide), if_neg (by rw [h1]; decide)]
  · simp only [stability_score]
    rw [if_neg (by rw [h3]; decide), if_pos h3]
  · intro rows c
    have hlen := monthly_income_series_len rows c
    simp only [stability_data]
    split_ifs with hA hB hC
    · rfl
    · exact absurd hB (by omega)
    · rfl
    · rfl

/-- Witness for `stability_status_semantics`: the future-dated income
scenario has status `zero_mean_income`, and the theorem places its income
month (August 2026) outside the reindexed January–June range. -/
theorem stability_status_semantics_witness :
    civilMonth (20680 : ℤ) ∉ monthRange (civilMonth (calcDay - 180)) (civilMonth calcDay) :=
  stability_status_semantics.2.2.2.2.2.1 futureScn calcDay (by decide)
    ⟨20680, none, 2000, 2000, "STABILITY_INCOME", true, true, none⟩ (by decide)

/-- Claim **C2** (code bug evidence): a single natively essential transaction
(role `BUFFER_ESSENTIAL`, `needs_enrichment = False`, net −100, never
touched by MCC enrichment) is counted by the code in *both* layer 1 (role
in `ESSENTIAL_SPENDING_ROLES`) and layer 2 (mask
`role == BUFFER_ESSENTIAL ∧ ¬needs_enrichment`), yielding 200, while the
spec's three disjoint layers total 100. -/
theorem buffer_layer_double_count :
    code_total_essential ddScn calcDay = 200
      ∧ spec_total_essential ddScn calcDay = 100
      ∧ identified_essential (recentWindow (enrich_with_mcc ddScn) calcDay) = 100
      ∧ mcc_enriched_essential (recentWindow (enrich_with_mcc ddScn) calcDay) = 100 := by
  refine ⟨by decide, by decide, by decide, by decide⟩

/-- Claim **C5**: per momentum window the net debt-stock change is
`new_debt − (outflow repayments + inflow refund credits)`, and
`delta_d = −(debt_change_recent − debt_change_prior) / avg_income` where
`avg_income` is the mean of the two windows' income components, falling
back to `max(incomes, 1.0)` exactly when both incomes are ≤ 0. -/
theorem debt_trajectory_formulas :
    (∀ subset : List CTx,
      (calc_net_debt_change subset).1
        = new_debt subset - (repaid_outflows subset + refund_inflows subset))
    ∧ (∀ (rows : List CTx) (c : ℤ),
        delta_d rows c
          = -(debt_change_recent rows c - debt_change_prior rows c) / avg_income rows c)
    ∧ (∀ (rows : List CTx) (c : ℤ),
        avg_income rows c
          = if (nfr_recent_parts rows c).income ≤ 0 ∧ (nfr_prior_parts rows c).income ≤ 0
            then max (max (nfr_recent_parts rows c).income (nfr_prior_parts rows c).income) 1
            else ((nfr_recent_parts rows c).income + (nfr_prior_parts rows c).income) / 2) := by
  refine ⟨fun subset => rfl, fun rows c => rfl, fun rows c => ?_⟩
  have hR : 0 ≤ (nfr_recent_parts rows c).income := calc_nfr_income_nonneg _
  have hP : 0 ≤ (nfr_prior_parts rows c).income := calc_nfr_income_nonneg _
  simp only [avg_income]
  by_cases h : ((nfr_recent_parts rows c).income + (nfr_prior_parts rows c).income) / 2 ≤ 0
  · rw [if_pos h, if_pos ⟨by linarith, by linarith⟩]
  · rw [if_neg h, if_neg (fun hc => h (by linarith [hc.1, hc.2]))]

/-- Claim **C7**: zero-denominator guards — zero (or negative) average essential
spending yields Buffer = 100 rather than an error, a window with income
≤ 0 gets NFR = 0, and each score is a well-defined bounded value (nothing
NaN/infinite: every score lies in [0, 100]). -/
theorem division_guards :
    (∀ (rows : List CTx) (cb sb : ℚ) (age : Option ℤ) (c : ℤ),
      avg_monthly_essential rows c ≤ 0 → buffer_score rows cb sb age c = 100)
    ∧ (∀ subset : List CTx, nfr_income subset ≤ 0 → (calc_nfr subset).1 = 0)
    ∧ (∀ (rows : List CTx) (cb sb : ℚ) (age : Option ℤ) (c : ℤ),
        0 ≤ buffer_score rows cb sb age c ∧ buffer_score rows cb sb age c ≤ 100)
    ∧ (∀ (rows : List CTx) (c : ℤ),
        0 ≤ stability_score rows c ∧ stability_score rows c ≤ 100)
    ∧ (∀ (rows : List CTx) (c : ℤ),
        0 ≤ momentum_score rows c ∧ momentum_score rows c ≤ 100) := by
  refine ⟨?_, ?_, buffer_score_mem, stability_score_mem, momentum_score_mem⟩
  · intro rows cb sb age c h
    unfold buffer_score
    rw [if_pos h]
    norm_num
  · intro subset h
    simp only [calc_nfr]
    split_ifs with h1 <;> rfl

/-- Witness for `division_guards`: with no transactions the essential
spending is 0, the Buffer is 100, and the empty window's NFR is 0. -/
theorem division_guards_witness :
    buffer_score [] 5 7 none calcDay = 100 ∧ (calc_nfr []).1 = 0 :=
  ⟨division_guards.1 [] 5 7 none calcDay (by decide),
   division_guards.2.1 [] (by decide)⟩

/-- Counterexample to claim **C9** as stated: a table with the `TransactionType`
column missing (and numeric amount columns present) is *not* rejected —
classification returns a classified result, with the row defaulted to
`SYSTEM_OPERATION` by the fallback chain. -/
theorem classify_missing_type_returns :
    classifyTable tblNoType
      = .ok [⟨20600, some "ΑΝΑΛΗΨΗ ΤΑΜΙΕΥΤΗΡΙΟΥ ΓΙΑ POS", -25, 25,
              "SYSTEM_OPERATION", false, true, none⟩] := by
  rfl

/-- Claim **C9 (amended)**: the classifier boundary fails fast exactly when an
amount column (`CreditAmountLC`, then `DebitAmountLC`) is missing or some
amount cell is non-numeric; a missing `transaction_date`,
`TransactionType` or `TransactionSubSubType` column never raises there
(the classifier never reads the date, and type/subtype fall through the
fallback chain). -/
theorem classify_boundary_error_semantics (t : RawTable) :
    classifyOk (classifyTable t)
      = (t.has_credit && t.has_debit &&
         t.rows.all fun r => r.CreditAmountLC.isNumericOrNa && r.DebitAmountLC.isNumericOrNa) := by
  simp only [classifyTable]
  cases hc : t.has_credit <;> cases hd : t.has_debit <;>
    cases hall : (t.rows.all fun r =>
      r.CreditAmountLC.isNumericOrNa && r.DebitAmountLC.isNumericOrNa) <;>
    simp [classifyOk, hc, hd, hall]

end Proofs

end FRI

